import Mathlib

/-!
Verification of the plantuml-rs packaging and invocation layer.

The development shallowly embeds the relevant Rust code:
  - build.rs: the Bundle Builder (createBundleZipFromZip, createBundleZipFromTarball);
  - src/binary.rs: the Bundle Cache (getBundlePaths, extractBundle), with the
    process-wide OnceCell state and the filesystem made explicit;
  - src/executor.rs: the Invoker (executePipe, classifyOutput);
  - src/error.rs: the error taxonomy (PlantUmlError);
  - src/lib.rs: the file facade (renderFile).

Rust strings and paths are embedded as lists of characters; byte payloads are
embedded as character lists as well (only identity of payloads matters to the
properties proved here). External effects (filesystem reads and writes, child
processes) are passed in explicitly as environment records.
-/

/-- Rust str / String / Path, embedded as a list of characters. -/
abbrev Str := List Char

/-- Convert a Lean string literal to the embedding type. -/
def str (s : String) : Str := s.toList

/-- Rust str::starts_with for the embedding: does `p` start the list `s`. -/
def strStarts : Str → Str → Bool
  | [], _ => true
  | _ :: _, [] => false
  | p :: ps, c :: cs => if p = c then strStarts ps cs else false

/-- Rust str::contains (substring test): does `p` occur inside `s`. -/
def strHas (s p : Str) : Bool :=
  match s with
  | [] => p.isEmpty
  | _ :: rest => strStarts p s || strHas rest p

/-- Rust str::split_once at a separator character: the part before the first
occurrence and the part after it, or none when the separator is absent. -/
def splitOnce (sep : Char) : Str → Option (Str × Str)
  | [] => none
  | c :: cs =>
    if c = sep then some ([], cs)
    else
      match splitOnce sep cs with
      | some (a, b) => some (c :: a, b)
      | none => none

/-- Rust str::strip_prefix: drop `p` from the front of `s` when it is a prefix. -/
def dropStart? : Str → Str → Option Str
  | [], s => some s
  | _ :: _, [] => none
  | p :: ps, c :: cs => if p = c then dropStart? ps cs else none

/-- Rust str::ends_with for a single character. -/
def endsChar (s : Str) (c : Char) : Bool := s.getLast? = some c

/-- PathBuf::join with a relative component: parent, separator, child. -/
def pathJoin (a b : Str) : Str := a ++ '/' :: b

/-- The error enum of src/error.rs. io::Error payloads and the FromUtf8Error
payload are embedded as message text. -/
inductive PlantUmlError where
  | BinaryExtraction (err : Str)
  | ProcessFailed (code : Int) (stderr : Str)
  | ProcessSignaled
  | ProcessSpawn (err : Str)
  | StdinWrite (err : Str)
  | InputRead (path : Str) (source : Str)
  | OutputWrite (path : Str) (source : Str)
  | InvalidUtf8 (err : Str)
  | SyntaxError (msg : Str)
deriving DecidableEq, Repr

/-- BundlePaths from src/binary.rs. -/
structure BundlePaths where
  java_exe : Str
  plantuml_jar : Str
deriving DecidableEq, Repr

/-- The observable outcome of Child::wait_with_output in src/executor.rs.
`exitCode` is ExitStatus::code(): none models abnormal, signal-style
termination with no exit code. `stdout` is the result of String::from_utf8 on
the captured standard output: some decoded text, or none when the bytes are
not valid UTF-8. `stderr` is the captured standard error after lossy
decoding. -/
structure ProcessOutput where
  exitCode : Option Int
  stdout : Option Str
  stderr : Str
deriving DecidableEq, Repr

/-- ExitStatus::success(): a zero exit code. -/
def statusSuccess (code : Option Int) : Bool := code = some 0

/-- The syntax-error test of src/executor.rs line 45: the captured standard
error contains the marker text of the upstream tool. -/
def containsSyntaxMarker (stderr : Str) : Bool :=
  strHas stderr (str "Syntax Error") || strHas stderr (str "@startuml")

/-- The exit-status decision rule of execute_pipe (src/executor.rs lines
40..52), applied to a completed child process. -/
def classifyOutput (po : ProcessOutput) : Except PlantUmlError Str :=
  if !(statusSuccess po.exitCode) then
    let code := po.exitCode.getD (-1)
    if containsSyntaxMarker po.stderr then
      .error (.SyntaxError po.stderr)
    else
      .error (.ProcessFailed code po.stderr)
  else
    match po.stdout with
    | some s => .ok s
    | none => .error (.InvalidUtf8 (str "invalid utf-8"))

/-- The external world seen by one call of execute_pipe: the result of
get_bundle_paths, of Command::spawn, of the stdin write, and of
wait_with_output. Raw failures carry their io error text. -/
structure ExecEnv where
  pathsResult : Except PlantUmlError BundlePaths
  spawnResult : Except Str Unit
  stdinResult : Except Str Unit
  waitResult : Except Str ProcessOutput

/-- execute_pipe from src/executor.rs: resolve bundle paths, spawn the child,
write the diagram text to its stdin, wait, then classify the outcome. A
failure of wait_with_output is wrapped as ProcessSpawn, as in the source. -/
def executePipe (env : ExecEnv) (_input : Str) : Except PlantUmlError Str :=
  match env.pathsResult with
  | .error e => .error e
  | .ok _paths =>
    match env.spawnResult with
    | .error e => .error (.ProcessSpawn e)
    | .ok _ =>
      match env.stdinResult with
      | .error e => .error (.StdinWrite e)
      | .ok _ =>
        match env.waitResult with
        | .error e => .error (.ProcessSpawn e)
        | .ok po => classifyOutput po

/-- An entry of the upstream JRE ZIP as read in create_bundle_zip_from_zip:
its name and its byte content. A directory entry is one whose name ends with
the slash character, exactly as the source tests it. -/
structure SrcZipEntry where
  name : Str
  data : Str
deriving DecidableEq, Repr

/-- tar::EntryType as consulted by create_bundle_zip_from_tarball: directory,
regular file, or anything else (symlinks and the rest, which are skipped). -/
inductive TarEntryType where
  | dir
  | file
  | other
deriving DecidableEq, Repr

/-- An entry of the upstream JRE tarball: its path, type, byte content, and
the Unix mode of its header (none models a header whose mode field fails to
parse, the Err case of Header::mode). -/
structure TarEntry where
  path : Str
  etype : TarEntryType
  data : Str
  mode : Option Nat
deriving DecidableEq, Repr

/-- An entry written to the bundle ZIP by build.rs: a directory, or a file
with its bytes and the Unix mode recorded on it (none when the writer options
carry no unix_permissions call). -/
inductive BundleEntry where
  | dir (name : Str)
  | file (name : Str) (data : Str) (mode : Option Nat)
deriving DecidableEq, Repr

/-- The name of a bundle entry. -/
def BundleEntry.entryName : BundleEntry → Str
  | .dir n => n
  | .file n _ _ => n

/-- The per-entry body of the loop of create_bundle_zip_from_zip
(build.rs lines 123..156): strip the first path segment via split_once,
discard entries whose remainder is empty, and emit the rest under the jre
subtree, as a directory when the original name ends with the slash character
and as a file otherwise. ZIP-sourced entries carry no Unix mode. -/
def bundleFromZipStep (e : SrcZipEntry) : Option BundleEntry :=
  let rel :=
    match splitOnce '/' e.name with
    | some (_, rest) => rest
    | none => e.name
  if rel = [] then none
  else
    let bundlePath := str "jre/" ++ rel
    if endsChar e.name '/' then some (.dir bundlePath)
    else some (.file bundlePath e.data none)

/-- create_bundle_zip_from_zip (build.rs lines 103..159): the PlantUML jar at
the root, then the stripped JRE entries. -/
def createBundleZipFromZip (jar : Str) (entries : List SrcZipEntry) : List BundleEntry :=
  .file (str "plantuml.jar") jar none :: entries.filterMap bundleFromZipStep

/-- The macOS wrapper stripping of build.rs lines 208..215: strip a leading
Contents/Home/ segment, or a leading Contents/Home, and otherwise keep the
path unchanged. -/
def stripMacosWrapper (rel : Str) : Str :=
  match dropStart? (str "Contents/Home/") rel with
  | some r => r
  | none =>
    match dropStart? (str "Contents/Home") rel with
    | some r => r
    | none => rel

/-- The per-entry body of the loop of create_bundle_zip_from_tarball
(build.rs lines 189..249): strip the first path segment; discard an empty
remainder; on macOS additionally strip the Contents/Home wrapper and discard
remainders that are empty or exactly Contents with or without a trailing
slash; then emit directories and regular files under the jre subtree,
skipping every other entry type. On a Unix build host a file entry records
the header mode, defaulting to mode 420 (octal 644) when the header mode is
unavailable; on a non-Unix host the cfg(unix) block is compiled out and no
mode is recorded. -/
def bundleFromTarStep (isMacos hostUnix : Bool) (e : TarEntry) : Option BundleEntry :=
  let rel :=
    match splitOnce '/' e.path with
    | some (_, rest) => rest
    | none => e.path
  if rel = [] then none
  else
    let rel := if isMacos then stripMacosWrapper rel else rel
    if rel = [] ∨ rel = str "Contents" ∨ rel = str "Contents/" then none
    else
      let bundlePath := str "jre/" ++ rel
      match e.etype with
      | .dir => some (.dir bundlePath)
      | .file =>
        some (.file bundlePath e.data
          (if hostUnix then some (e.mode.getD 0o644) else none))
      | .other => none

/-- create_bundle_zip_from_tarball (build.rs lines 161..252): the PlantUML
jar at the root, then the stripped JRE tarball entries. -/
def createBundleZipFromTarball (jar : Str) (entries : List TarEntry)
    (isMacos hostUnix : Bool) : List BundleEntry :=
  .file (str "plantuml.jar") jar none ::
    entries.filterMap (bundleFromTarStep isMacos hostUnix)

/-- An entry of the embedded bundle ZIP read back by extract_bundle in
src/binary.rs: name, bytes, and the Unix mode stored on it by the builder. -/
structure ZipEntry where
  name : Str
  data : Str
  mode : Option Nat
deriving DecidableEq, Repr

/-- A file on the modelled filesystem: its path, bytes, and the mode that was
explicitly set on it. None means the file has whatever default mode
fs::File::create gives; the extraction code of src/binary.rs never calls
set_permissions, so it only ever produces files with mode none. -/
structure FsFile where
  path : Str
  data : Str
  mode : Option Nat
deriving DecidableEq, Repr

/-- The modelled filesystem: the set of created directories and the written
files, most recent first. -/
structure FsState where
  dirs : List Str
  files : List FsFile
deriving DecidableEq, Repr

/-- Path::exists for the model: a file or a directory is present at the path. -/
def fsExists (fs : FsState) (p : Str) : Bool :=
  fs.files.any (fun f => f.path == p) || fs.dirs.any (fun d => d == p)

/-- Path::parent for the model: the part before the final slash. -/
def parentDir (p : Str) : Option Str :=
  match splitOnce '/' p.reverse with
  | some (_, rest) => some rest.reverse
  | none => none

/-- The per-entry body of the extraction loop of extract_bundle
(src/binary.rs lines 55..85): a name ending in the slash character is created
as a directory; otherwise parent directories are created and the bytes are
written with fs::File::create followed by write_all, which leaves the file
with the default creation mode (the stored entry mode is never consulted). -/
def extractEntry (cacheDir : Str) (fs : FsState) (e : ZipEntry) : FsState :=
  if endsChar e.name '/' then
    { fs with dirs := pathJoin cacheDir e.name :: fs.dirs }
  else
    let outputPath := pathJoin cacheDir e.name
    let fs :=
      match parentDir outputPath with
      | some parent => { fs with dirs := parent :: fs.dirs }
      | none => fs
    { fs with files := ⟨outputPath, e.data, none⟩ :: fs.files }

/-- The process-wide state of src/binary.rs: the EXTRACTED_DIR OnceCell, the
filesystem, and an extraction counter instrumenting how many times the
extraction loop (the non-fast-path branch of extract_bundle) has run. -/
structure ProcState where
  extractedDir : Option Str
  fs : FsState
  extractCount : Nat
deriving DecidableEq, Repr

/-- extract_bundle (src/binary.rs lines 37..88), parameterized by the cache
directory computed by get_cache_dir and by the entries of the embedded bundle
ZIP. If the java executable and the jar already exist at their expected paths
the cache directory is returned untouched (the fast path); otherwise the
cache directory is created and every bundle entry is extracted, and the
extraction counter is bumped. Filesystem writes are modelled as succeeding. -/
def extractBundle (cacheDir : Str) (bundle : List ZipEntry) (s : ProcState) :
    Str × ProcState :=
  let javaExe := pathJoin (pathJoin (pathJoin cacheDir (str "jre")) (str "bin")) (str "java.exe")
  let jarPath := pathJoin cacheDir (str "plantuml.jar")
  if fsExists s.fs javaExe && fsExists s.fs jarPath then
    (cacheDir, s)
  else
    let fs1 : FsState := { s.fs with dirs := cacheDir :: s.fs.dirs }
    let fs2 := bundle.foldl (extractEntry cacheDir) fs1
    (cacheDir, { s with fs := fs2, extractCount := s.extractCount + 1 })

/-- The BundlePaths built by get_bundle_paths from the resolved directory:
dir/jre/bin/java.exe and dir/plantuml.jar, on every platform. -/
def mkBundlePaths (dir : Str) : BundlePaths :=
  ⟨pathJoin (pathJoin (pathJoin dir (str "jre")) (str "bin")) (str "java.exe"),
   pathJoin dir (str "plantuml.jar")⟩

/-- get_bundle_paths (src/binary.rs lines 27..34): read the OnceCell, running
extract_bundle only when it is still empty, memoize the resolved directory,
and build the two paths from it. -/
def getBundlePaths (cacheDir : Str) (bundle : List ZipEntry) (s : ProcState) :
    Except PlantUmlError BundlePaths × ProcState :=
  match s.extractedDir with
  | some dir => (.ok (mkBundlePaths dir), s)
  | none =>
    let r := extractBundle cacheDir bundle s
    (.ok (mkBundlePaths r.1), { r.2 with extractedDir := some r.1 })

/-- The file I/O seen by render_file: the result of fs::read_to_string at
each path, and whether fs::write succeeds at each path, with the io error
text when it does not. -/
structure IoEnv where
  readResult : Str → Except Str Str
  writeOk : Str → Bool
  writeErr : Str → Str

/-- render_file (src/lib.rs lines 63..77): read the input file, wrapping a
failure as InputRead with the input path; run execute_pipe on the content;
write the result to the output file, wrapping a failure as OutputWrite with
the output path. The returned list records the file writes performed. -/
def renderFile (disk : IoEnv) (env : ExecEnv) (input output : Str) :
    Except PlantUmlError Unit × List (Str × Str) :=
  match disk.readResult input with
  | .error e => (.error (.InputRead input e), [])
  | .ok content =>
    match executePipe env content with
    | .error e => (.error e, [])
    | .ok svg =>
      if disk.writeOk output then (.ok (), [(output, svg)])
      else (.error (.OutputWrite output (disk.writeErr output)), [])

/-! ### Helper lemmas -/

theorem splitOnce_sep {w : Str} (x : Str) (hw : '/' ∉ w) :
    splitOnce '/' (w ++ '/' :: x) = some (w, x) := by
  induction w with
  | nil => simp [splitOnce]
  | cons c cs ih =>
    have hc : ¬(c = '/') := fun h => hw (by simp [h])
    have ih1 := ih (fun h => hw (List.mem_cons_of_mem _ h))
    simp [splitOnce, hc, ih1]

theorem dropStart?_append (p s : Str) : dropStart? p (p ++ s) = some s := by
  induction p with
  | nil => rfl
  | cons c cs ih => simp [dropStart?, ih]

theorem extractBundle_fst (cacheDir : Str) (bundle : List ZipEntry) (s : ProcState) :
    (extractBundle cacheDir bundle s).1 = cacheDir := by
  unfold extractBundle
  dsimp only
  split <;> rfl

theorem extractBundle_count (cacheDir : Str) (bundle : List ZipEntry) (s : ProcState) :
    (extractBundle cacheDir bundle s).2.extractCount ≤ s.extractCount + 1 := by
  unfold extractBundle
  dsimp only
  split
  · exact Nat.le_succ _
  · exact Nat.le_refl _

/-! ### Claim theorems for the Bundle Cache -/

/-- Claim C1: within one process, calling get_bundle_paths twice returns
identical BundlePaths, the extraction loop runs at most once, and after the
first successful call the memoized result is returned: the second call leaves
the state untouched and its result does not depend on the filesystem at all.
The process starts with an empty OnceCell and a zero extraction count; the
modelled filesystem operations succeed, matching the claim, which speaks of
the state after the first successful call. -/
theorem getBundlePaths_memoized (cacheDir : Str) (bundle : List ZipEntry) (fs0 : FsState) :
    ((getBundlePaths cacheDir bundle
        (getBundlePaths cacheDir bundle ⟨none, fs0, 0⟩).2).1
      = (getBundlePaths cacheDir bundle ⟨none, fs0, 0⟩).1) ∧
    ((getBundlePaths cacheDir bundle
        (getBundlePaths cacheDir bundle ⟨none, fs0, 0⟩).2).2
      = (getBundlePaths cacheDir bundle ⟨none, fs0, 0⟩).2) ∧
    ((getBundlePaths cacheDir bundle ⟨none, fs0, 0⟩).2.extractCount ≤ 1) ∧
    (∀ fs1 : FsState,
      (getBundlePaths cacheDir bundle
        ⟨(getBundlePaths cacheDir bundle ⟨none, fs0, 0⟩).2.extractedDir, fs1,
         (getBundlePaths cacheDir bundle ⟨none, fs0, 0⟩).2.extractCount⟩).1
      = (getBundlePaths cacheDir bundle ⟨none, fs0, 0⟩).1) := by
  have hfst := extractBundle_fst cacheDir bundle ⟨none, fs0, 0⟩
  have hcount := extractBundle_count cacheDir bundle ⟨none, fs0, 0⟩
  refine ⟨?_, ?_, ?_, ?_⟩
  · simp [getBundlePaths, hfst]
  · simp [getBundlePaths, hfst]
  · simpa [getBundlePaths, hfst] using hcount
  · intro fs1
    simp [getBundlePaths, hfst]

/-- Claim C3: when both the runtime executable and the application archive
already exist at their expected paths inside the cache directory, resolution
returns those paths immediately: the filesystem and the extraction count are
untouched, so no extraction from the embedded archive happens. -/
theorem getBundlePaths_fast_path (cacheDir : Str) (bundle : List ZipEntry) (s : ProcState)
    (h0 : s.extractedDir = none)
    (hj : fsExists s.fs
      (pathJoin (pathJoin (pathJoin cacheDir (str "jre")) (str "bin")) (str "java.exe")) = true)
    (hr : fsExists s.fs (pathJoin cacheDir (str "plantuml.jar")) = true) :
    getBundlePaths cacheDir bundle s
      = (.ok (mkBundlePaths cacheDir), ⟨some cacheDir, s.fs, s.extractCount⟩) := by
  unfold getBundlePaths
  rw [h0]
  unfold extractBundle
  simp [hj, hr]

/-- The fast-path state used by the C3 witness: both expected files present. -/
def warmState : ProcState :=
  ⟨none,
   ⟨[], [⟨str "/c/jre/bin/java.exe", str "ELF", none⟩,
         ⟨str "/c/plantuml.jar", str "JAR", none⟩]⟩,
   0⟩

/-- Witness for claim C3 at a concrete warmed cache. -/
theorem getBundlePaths_fast_path_witness :
    getBundlePaths (str "/c") [⟨str "jre/", str "", none⟩] warmState
      = (.ok (mkBundlePaths (str "/c")), ⟨some (str "/c"), warmState.fs, 0⟩) :=
  getBundlePaths_fast_path (str "/c") [⟨str "jre/", str "", none⟩] warmState
    rfl (by decide) (by decide)

/-- Claim C4: extracting a file entry creates its parent directory and writes
its bytes verbatim, but the stored permission mode of the entry is never
applied to the written file: at a concrete entry carrying mode octal 755 the
resulting file is left with the default creation mode (mode none in the
model), not the stored one. The source calls fs::File::create and write_all
only and never set_permissions, so the executable bit stored by the builder
is lost on platforms that honor modes. -/
theorem extractBundle_ignores_stored_mode :
    (extractBundle (str "/cache") [⟨str "jre/bin/java", str "JX", some 0o755⟩]
        ⟨none, ⟨[], []⟩, 0⟩).2.fs
      = ⟨[str "/cache/jre/bin", str "/cache"],
         [⟨str "/cache/jre/bin/java", str "JX", none⟩]⟩ ∧
    (none : Option Nat) ≠ some 0o755 := by
  constructor
  · decide
  · decide

/-- Claim C10: on every platform the resolved runtime executable path is the
cache directory followed by /jre/bin/java.exe, with the java.exe name even on
Linux and macOS, and the application archive path is the cache directory
followed by /plantuml.jar; the same shape holds for a fresh call and for a
memoized call. -/
theorem getBundlePaths_literal_paths (cacheDir : Str) (bundle : List ZipEntry)
    (fs0 : FsState) (n : Nat) :
    ((getBundlePaths cacheDir bundle ⟨none, fs0, n⟩).1
      = .ok ⟨cacheDir ++ str "/jre/bin/java.exe", cacheDir ++ str "/plantuml.jar"⟩) ∧
    (∀ (d : Str) (fs1 : FsState),
      (getBundlePaths cacheDir bundle ⟨some d, fs1, n⟩).1
        = .ok ⟨d ++ str "/jre/bin/java.exe", d ++ str "/plantuml.jar"⟩) := by
  have hmk : ∀ d : Str,
      mkBundlePaths d = ⟨d ++ str "/jre/bin/java.exe", d ++ str "/plantuml.jar"⟩ := by
    intro d
    simp only [mkBundlePaths, pathJoin, List.append_assoc, List.cons_append]
    rfl
  have hfst := extractBundle_fst cacheDir bundle ⟨none, fs0, n⟩
  constructor
  · simp [getBundlePaths, hfst, hmk]
  · intro d fs1
    simp [getBundlePaths, hmk]

/-! ### Claim theorems for the Invoker and the facade -/

/-- Claim C5: a signal-terminated child (no exit code) is NOT given its own
failure kind by execute_pipe. At a concrete abnormal termination with plain
error text, the result is the generic ProcessFailed kind carrying the
placeholder exit code -1, produced by unwrap_or(-1) in src/executor.rs line
42, even though the error enum declares the dedicated ProcessSignaled kind,
which is never constructed anywhere in the crate. -/
theorem executePipe_signal_not_distinct :
    executePipe
        ⟨.ok (mkBundlePaths (str "/c")), .ok (), .ok (),
         .ok ⟨none, some [], str "boom"⟩⟩ (str "x")
      = .error (.ProcessFailed (-1) (str "boom")) ∧
    PlantUmlError.ProcessFailed (-1) (str "boom") ≠ .ProcessSignaled := by
  constructor
  · rfl
  · decide

/-- Claim C6: for a child that exits with a non-zero code, execute_pipe
classifies the outcome by the standard-error text: when it contains a
recognizable syntax-error marker the result is SyntaxError carrying the whole
error text, otherwise ProcessFailed carrying the exit code and the whole
error text. -/
theorem executePipe_nonzero_exit_classified (env : ExecEnv) (input : Str)
    (po : ProcessOutput) (bp : BundlePaths) (c : Int)
    (hp : env.pathsResult = .ok bp)
    (hs : env.spawnResult = .ok ())
    (hi : env.stdinResult = .ok ())
    (hw : env.waitResult = .ok po)
    (hc : po.exitCode = some c)
    (hnz : c ≠ 0) :
    executePipe env input
      = (if containsSyntaxMarker po.stderr then
           .error (.SyntaxError po.stderr)
         else
           .error (.ProcessFailed c po.stderr)) := by
  have hclass : classifyOutput po
      = (if containsSyntaxMarker po.stderr then
           .error (.SyntaxError po.stderr)
         else
           .error (.ProcessFailed c po.stderr)) := by
    unfold classifyOutput statusSuccess
    rw [hc]
    simp [hnz, Option.getD]
  unfold executePipe
  rw [hp, hs, hi, hw]
  dsimp only
  exact hclass

/-- The concrete environment used by the C6 witness: a child that exits with
code 1 and a syntax-error marker on its error stream. -/
def markerFailEnv : ExecEnv :=
  ⟨.ok (mkBundlePaths (str "/c")), .ok (), .ok (),
   .ok ⟨some 1, some [], str "ERROR 1 Syntax Error?"⟩⟩

/-- Witness for claim C6 at a concrete failing invocation. -/
theorem executePipe_nonzero_exit_classified_witness :
    executePipe markerFailEnv (str "bad")
      = (if containsSyntaxMarker (str "ERROR 1 Syntax Error?") then
           .error (.SyntaxError (str "ERROR 1 Syntax Error?"))
         else
           .error (.ProcessFailed 1 (str "ERROR 1 Syntax Error?"))) :=
  executePipe_nonzero_exit_classified markerFailEnv (str "bad")
    ⟨some 1, some [], str "ERROR 1 Syntax Error?"⟩ (mkBundlePaths (str "/c")) 1
    rfl rfl rfl rfl rfl (by decide)

/-- Claim C9: render_file wraps an input-read failure as InputRead carrying
the input path, wraps an output-write failure as OutputWrite carrying the
output path, and on success writes to the output file exactly the text that
execute_pipe returns for the content of the input file. -/
theorem renderFile_facade (disk : IoEnv) (env : ExecEnv) :
    (∀ inP outP e, disk.readResult inP = .error e →
      renderFile disk env inP outP = (.error (.InputRead inP e), [])) ∧
    (∀ inP outP content svg, disk.readResult inP = .ok content →
      executePipe env content = .ok svg → disk.writeOk outP = false →
      renderFile disk env inP outP
        = (.error (.OutputWrite outP (disk.writeErr outP)), [])) ∧
    (∀ inP outP content svg, disk.readResult inP = .ok content →
      executePipe env content = .ok svg → disk.writeOk outP = true →
      renderFile disk env inP outP = (.ok (), [(outP, svg)])) := by
  refine ⟨?_, ?_, ?_⟩
  · intro inP outP e hr
    unfold renderFile
    rw [hr]
  · intro inP outP content svg hr hx hw
    unfold renderFile
    rw [hr]
    dsimp only
    rw [hx]
    dsimp only
    simp [hw]
  · intro inP outP content svg hr hx hw
    unfold renderFile
    rw [hr]
    dsimp only
    rw [hx]
    dsimp only
    simp [hw]

/-- The concrete file I/O environment of the C9 witness: one readable input,
one unreadable input, one writable output, one unwritable output. -/
def facadeDisk : IoEnv :=
  ⟨fun p => if p = str "in.puml" then .ok (str "@startuml A -> B @enduml")
            else .error (str "No such file"),
   fun p => p = str "out.svg",
   fun _ => str "Permission denied"⟩

/-- The concrete invoker environment of the C9 witness: a zero-exit child
whose decoded standard output is the SVG text. -/
def facadeEnv : ExecEnv :=
  ⟨.ok (mkBundlePaths (str "/c")), .ok (), .ok (),
   .ok ⟨some 0, some (str "<svg/>"), str ""⟩⟩

/-- Witness for claim C9: all three branches at concrete paths. -/
theorem renderFile_facade_witness :
    (renderFile facadeDisk facadeEnv (str "gone.puml") (str "out.svg")
      = (.error (.InputRead (str "gone.puml") (str "No such file")), [])) ∧
    (renderFile facadeDisk facadeEnv (str "in.puml") (str "locked.svg")
      = (.error (.OutputWrite (str "locked.svg") (str "Permission denied")), [])) ∧
    (renderFile facadeDisk facadeEnv (str "in.puml") (str "out.svg")
      = (.ok (), [(str "out.svg", str "<svg/>")])) :=
  ⟨(renderFile_facade facadeDisk facadeEnv).1 (str "gone.puml") (str "out.svg")
      (str "No such file") rfl,
   (renderFile_facade facadeDisk facadeEnv).2.1 (str "in.puml") (str "locked.svg")
      (str "@startuml A -> B @enduml") (str "<svg/>") rfl rfl rfl,
   (renderFile_facade facadeDisk facadeEnv).2.2 (str "in.puml") (str "out.svg")
      (str "@startuml A -> B @enduml") (str "<svg/>") rfl rfl rfl⟩

/-! ### Helper lemmas for the Bundle Builder -/

theorem bundleFromZipStep_shape {e : SrcZipEntry} {b : BundleEntry}
    (h : bundleFromZipStep e = some b) :
    ∃ rel, rel ≠ [] ∧ b.entryName = str "jre/" ++ rel := by
  unfold bundleFromZipStep at h
  dsimp only at h
  split at h
  · exact absurd h (by simp)
  · rename_i hrel
    split at h <;> (cases h; exact ⟨_, hrel, rfl⟩)

theorem bundleFromTarStep_shape {isMacos hostUnix : Bool} {e : TarEntry} {b : BundleEntry}
    (h : bundleFromTarStep isMacos hostUnix e = some b) :
    ∃ rel, rel ≠ [] ∧ rel ≠ str "Contents" ∧ rel ≠ str "Contents/" ∧
      b.entryName = str "jre/" ++ rel := by
  unfold bundleFromTarStep at h
  dsimp only at h
  split at h
  · exact absurd h (by simp)
  · split at h
    · split at h
      · exact absurd h (by simp)
      · rename_i hne
        push_neg at hne
        obtain ⟨h1, h2, h3⟩ := hne
        split at h
        · cases h; exact ⟨_, h1, h2, h3, rfl⟩
        · cases h; exact ⟨_, h1, h2, h3, rfl⟩
        · exact absurd h (by simp)
    · split at h
      · exact absurd h (by simp)
      · rename_i hne
        push_neg at hne
        obtain ⟨h1, h2, h3⟩ := hne
        split at h
        · cases h; exact ⟨_, h1, h2, h3, rfl⟩
        · cases h; exact ⟨_, h1, h2, h3, rfl⟩
        · exact absurd h (by simp)

theorem strStarts_wrapper_jre (rel : Str) :
    strStarts (str "wrapper-dir/") (str "jre/" ++ rel) = false := rfl

theorem bundleFromZipStep_wrapper (d X : Str) (hX : X ≠ []) :
    ∃ b, bundleFromZipStep ⟨str "wrapper-dir/" ++ X, d⟩ = some b ∧
      b.entryName = str "jre/" ++ X := by
  have hsplit : splitOnce '/' (str "wrapper-dir/" ++ X) = some (str "wrapper-dir", X) := by
    have hrw : str "wrapper-dir/" ++ X = str "wrapper-dir" ++ '/' :: X := rfl
    rw [hrw]
    exact splitOnce_sep X (by decide)
  unfold bundleFromZipStep
  rw [hsplit]
  dsimp only
  rw [if_neg hX]
  by_cases he : endsChar (str "wrapper-dir/" ++ X) '/' = true
  · rw [if_pos he]
    exact ⟨_, rfl, rfl⟩
  · rw [if_neg he]
    exact ⟨_, rfl, rfl⟩

theorem bundleFromTarStep_wrapper (hostUnix : Bool) (d : Str) (m : Option Nat)
    (t : TarEntryType) (ht : t = .dir ∨ t = .file) (X : Str) (hX : X ≠ [])
    (h2 : X ≠ str "Contents") (h3 : X ≠ str "Contents/") :
    ∃ b, bundleFromTarStep false hostUnix ⟨str "wrapper-dir/" ++ X, t, d, m⟩ = some b ∧
      b.entryName = str "jre/" ++ X := by
  have hsplit : splitOnce '/' (str "wrapper-dir/" ++ X) = some (str "wrapper-dir", X) := by
    have hrw : str "wrapper-dir/" ++ X = str "wrapper-dir" ++ '/' :: X := rfl
    rw [hrw]
    exact splitOnce_sep X (by decide)
  unfold bundleFromTarStep
  rw [hsplit]
  dsimp only
  rw [if_neg hX, if_neg (by simp [hX, h2, h3])]
  rcases ht with ht | ht <;> rw [ht] <;> exact ⟨_, rfl, rfl⟩

theorem bundleFromTarStep_macos_wrapper (hostUnix : Bool) (d : Str) (m : Option Nat)
    (t : TarEntryType) (ht : t = .dir ∨ t = .file) (X : Str) (hX : X ≠ [])
    (h2 : X ≠ str "Contents") (h3 : X ≠ str "Contents/") :
    ∃ b, bundleFromTarStep true hostUnix
        ⟨str "wrapper-dir/Contents/Home/" ++ X, t, d, m⟩ = some b ∧
      b.entryName = str "jre/" ++ X := by
  have hsplit : splitOnce '/' (str "wrapper-dir/Contents/Home/" ++ X)
      = some (str "wrapper-dir", str "Contents/Home/" ++ X) := by
    have hrw : str "wrapper-dir/Contents/Home/" ++ X
        = str "wrapper-dir" ++ '/' :: (str "Contents/Home/" ++ X) := rfl
    rw [hrw]
    exact splitOnce_sep _ (by decide)
  have hstrip : stripMacosWrapper (str "Contents/Home/" ++ X) = X := by
    unfold stripMacosWrapper
    rw [dropStart?_append]
  unfold bundleFromTarStep
  rw [hsplit]
  dsimp only
  rw [if_neg (by simp [str]), if_pos rfl]
  rw [hstrip]
  rw [if_neg (by simp [hX, h2, h3])]
  rcases ht with ht | ht <;> rw [ht] <;> exact ⟨_, rfl, rfl⟩

theorem jre_append_inj {a b : Str} (h : str "jre/" ++ a = str "jre/" ++ b) : a = b := by
  have h1 := congrArg (List.drop 4) h
  rwa [show (4 : Nat) = (str "jre/").length from rfl, List.drop_left, List.drop_left] at h1

/-! ### Claim theorems for the Bundle Builder -/

/-- Claim C2, amended: on both decoding paths no produced entry begins with
wrapper-dir/, a directory or regular-file entry wrapper-dir/X with nonempty X
is re-emitted at jre/X (the runtime subtree of the bundle is literally named
jre, not runtime), and an entry whose stripped path is empty is discarded; on
the gzip-tar path entries whose stripped path is exactly Contents with or
without a trailing slash are also discarded, and entries that are neither
directories nor regular files (symbolic links and the rest) are skipped, so
the amended mapping clause is scoped to directory and regular-file entries
whose stripped path survives those checks. -/
theorem bundle_wrapper_stripping (jar : Str) (zs : List SrcZipEntry)
    (ts : List TarEntry) (hostUnix : Bool) :
    (∀ b ∈ createBundleZipFromZip jar zs,
      strStarts (str "wrapper-dir/") b.entryName = false) ∧
    (∀ e ∈ zs, ∀ X, X ≠ [] → e.name = str "wrapper-dir/" ++ X →
      ∃ b ∈ createBundleZipFromZip jar zs, b.entryName = str "jre/" ++ X) ∧
    (∀ d : Str, bundleFromZipStep ⟨str "wrapper-dir/", d⟩ = none) ∧
    (∀ b ∈ createBundleZipFromTarball jar ts false hostUnix,
      strStarts (str "wrapper-dir/") b.entryName = false) ∧
    (∀ e ∈ ts, (e.etype = .dir ∨ e.etype = .file) → ∀ X, X ≠ [] →
      X ≠ str "Contents" → X ≠ str "Contents/" →
      e.path = str "wrapper-dir/" ++ X →
      ∃ b ∈ createBundleZipFromTarball jar ts false hostUnix,
        b.entryName = str "jre/" ++ X) ∧
    (∀ (t : TarEntryType) (d : Str) (m : Option Nat),
      bundleFromTarStep false hostUnix ⟨str "wrapper-dir/", t, d, m⟩ = none) := by
  refine ⟨?_, ?_, ?_, ?_, ?_, ?_⟩
  · intro b hb
    rcases List.mem_cons.mp hb with hb | hb
    · rw [hb]; rfl
    · obtain ⟨a, ha, hfa⟩ := List.mem_filterMap.mp hb
      obtain ⟨rel, _, hname⟩ := bundleFromZipStep_shape hfa
      rw [hname]
      exact strStarts_wrapper_jre rel
  · intro e he X hX hname
    obtain ⟨b, hb, hbn⟩ := bundleFromZipStep_wrapper e.data X hX
    refine ⟨b, List.mem_cons_of_mem _ (List.mem_filterMap.mpr ⟨e, he, ?_⟩), hbn⟩
    cases e with
    | mk n dta =>
      dsimp only at hname
      subst hname
      exact hb
  · intro d
    rfl
  · intro b hb
    rcases List.mem_cons.mp hb with hb | hb
    · rw [hb]; rfl
    · obtain ⟨a, ha, hfa⟩ := List.mem_filterMap.mp hb
      obtain ⟨rel, _, _, _, hname⟩ := bundleFromTarStep_shape hfa
      rw [hname]
      exact strStarts_wrapper_jre rel
  · intro e he ht X hX h2 h3 hname
    obtain ⟨b, hb, hbn⟩ := bundleFromTarStep_wrapper hostUnix e.data e.mode e.etype ht X hX h2 h3
    refine ⟨b, List.mem_cons_of_mem _ (List.mem_filterMap.mpr ⟨e, he, ?_⟩), hbn⟩
    cases e with
    | mk p t dta m =>
      dsimp only at hname
      subst hname
      exact hb
  · intro t d m
    rfl

/-- Claim C2 counterexample, refuting the claim as stated: a stripped
wrapper-dir/bin/java entry is produced at jre/bin/java and no entry named
runtime/bin/java exists; moreover on the gzip-tar path a regular file whose
stripped path is exactly Contents, and a symbolic-link entry, produce no
bundle entry at all, although the claim as stated would require
runtime/Contents and runtime/bin/jexec entries. -/
theorem bundle_wrapper_stripping_cex :
    ((createBundleZipFromZip (str "JAR") [⟨str "wrapper-dir/bin/java", str "JB"⟩]).map
        BundleEntry.entryName = [str "plantuml.jar", str "jre/bin/java"]) ∧
    (((createBundleZipFromZip (str "JAR") [⟨str "wrapper-dir/bin/java", str "JB"⟩]).map
        BundleEntry.entryName).contains (str "runtime/bin/java") = false) ∧
    ((createBundleZipFromTarball (str "JAR")
        [⟨str "wrapper-dir/Contents", .file, str "CC", some 0o644⟩,
         ⟨str "wrapper-dir/bin/jexec", .other, str "LN", some 0o777⟩] false true).map
        BundleEntry.entryName = [str "plantuml.jar"]) := by decide

/-- The concrete archives used by the C2 witness. -/
def zipProbe : List SrcZipEntry := [⟨str "wrapper-dir/bin/java", str "JB"⟩]

/-- The concrete tarball used by the C2 witness. -/
def tarProbe : List TarEntry := [⟨str "wrapper-dir/lib/jvm.cfg", .file, str "CF", some 0o644⟩]

/-- Witness for the amended claim C2 at concrete one-entry archives. -/
theorem bundle_wrapper_stripping_witness :
    (∃ b ∈ createBundleZipFromZip (str "JAR") zipProbe,
      b.entryName = str "jre/" ++ str "bin/java") ∧
    (∃ b ∈ createBundleZipFromTarball (str "JAR") tarProbe false true,
      b.entryName = str "jre/" ++ str "lib/jvm.cfg") :=
  ⟨(bundle_wrapper_stripping (str "JAR") zipProbe tarProbe true).2.1
      ⟨str "wrapper-dir/bin/java", str "JB"⟩ (by decide) (str "bin/java")
      (by decide) rfl,
   (bundle_wrapper_stripping (str "JAR") zipProbe tarProbe true).2.2.2.2.1
      ⟨str "wrapper-dir/lib/jvm.cfg", .file, str "CF", some 0o644⟩ (by decide)
      (Or.inr rfl) (str "lib/jvm.cfg") (by decide) (by decide) (by decide) rfl⟩

/-- Claim C7, amended: on the macOS tarball path a directory or regular-file
entry wrapper-dir/Contents/Home/X whose X is nonempty and not exactly
Contents (with or without a trailing slash) is emitted at jre/X (the runtime
subtree of the bundle is literally named jre, not runtime); a bare
wrapper-dir/Contents/ entry of any type is discarded; and no produced entry
at all is named jre/Contents or jre/Contents/. -/
theorem bundle_macos_stripping (jar : Str) (ts : List TarEntry) (hostUnix : Bool) :
    (∀ e ∈ ts, (e.etype = .dir ∨ e.etype = .file) → ∀ X, X ≠ [] →
      X ≠ str "Contents" → X ≠ str "Contents/" →
      e.path = str "wrapper-dir/Contents/Home/" ++ X →
      ∃ b ∈ createBundleZipFromTarball jar ts true hostUnix,
        b.entryName = str "jre/" ++ X) ∧
    (∀ (t : TarEntryType) (d : Str) (m : Option Nat),
      bundleFromTarStep true hostUnix ⟨str "wrapper-dir/Contents/", t, d, m⟩ = none) ∧
    (∀ b ∈ createBundleZipFromTarball jar ts true hostUnix,
      b.entryName ≠ str "jre/Contents" ∧ b.entryName ≠ str "jre/Contents/") := by
  refine ⟨?_, ?_, ?_⟩
  · intro e he ht X hX h2 h3 hname
    obtain ⟨b, hb, hbn⟩ :=
      bundleFromTarStep_macos_wrapper hostUnix e.data e.mode e.etype ht X hX h2 h3
    refine ⟨b, List.mem_cons_of_mem _ (List.mem_filterMap.mpr ⟨e, he, ?_⟩), hbn⟩
    cases e with
    | mk p t dta m =>
      dsimp only at hname
      subst hname
      exact hb
  · intro t d m
    rfl
  · intro b hb
    rcases List.mem_cons.mp hb with hb | hb
    · rw [hb]
      exact ⟨fun hc => by simp [BundleEntry.entryName, str] at hc,
             fun hc => by simp [BundleEntry.entryName, str] at hc⟩
    · obtain ⟨a, ha, hfa⟩ := List.mem_filterMap.mp hb
      obtain ⟨rel, _, h2, h3, hname⟩ := bundleFromTarStep_shape hfa
      rw [hname]
      constructor
      · intro hc
        exact h2 (jre_append_inj hc)
      · intro hc
        exact h3 (jre_append_inj hc)

/-- Claim C7 counterexample, refuting the claim as stated: the macOS-shaped
archive with a wrapper-dir/Contents/Home/bin/java file, a bare
wrapper-dir/Contents/ directory entry and a symbolic-link entry at
wrapper-dir/Contents/Home/bin/jexec produces the file entry at jre/bin/java,
not at runtime/bin/java as the claim states, and produces nothing for the
symbolic link although the claim as stated would require a runtime/bin/jexec
entry. -/
theorem bundle_macos_stripping_cex :
    ((createBundleZipFromTarball (str "JAR")
        [⟨str "wrapper-dir/Contents/Home/bin/java", .file, str "JX", some 0o755⟩,
         ⟨str "wrapper-dir/Contents/", .dir, str "", none⟩,
         ⟨str "wrapper-dir/Contents/Home/bin/jexec", .other, str "LN", some 0o777⟩]
        true true).map
        BundleEntry.entryName = [str "plantuml.jar", str "jre/bin/java"]) ∧
    (((createBundleZipFromTarball (str "JAR")
        [⟨str "wrapper-dir/Contents/Home/bin/java", .file, str "JX", some 0o755⟩,
         ⟨str "wrapper-dir/Contents/", .dir, str "", none⟩,
         ⟨str "wrapper-dir/Contents/Home/bin/jexec", .other, str "LN", some 0o777⟩]
        true true).map
        BundleEntry.entryName).contains (str "runtime/bin/java") = false) := by decide

/-- The concrete macOS-shaped tarball used by the C7 witness. -/
def macProbe : List TarEntry :=
  [⟨str "wrapper-dir/Contents/Home/bin/java", .file, str "JX", some 0o755⟩]

/-- Witness for the amended claim C7 at a concrete one-entry macOS archive. -/
theorem bundle_macos_stripping_witness :
    ∃ b ∈ createBundleZipFromTarball (str "JAR") macProbe true true,
      b.entryName = str "jre/" ++ str "bin/java" :=
  (bundle_macos_stripping (str "JAR") macProbe true).1
    ⟨str "wrapper-dir/Contents/Home/bin/java", .file, str "JX", some 0o755⟩
    (by decide) (Or.inr rfl) (str "bin/java") (by decide) (by decide) (by decide) rfl

/-- Claim C8: on a Unix build host every regular-file entry that the tarball
path emits carries the original header mode, with the standard non-executable
default octal 644 substituted when the header carries no readable mode; on
the ZIP (Windows-format) path every emitted file entry carries no mode and
the wrapper-dir/bin/java probe entry is produced without error. -/
theorem bundle_mode_preservation :
    (∀ (isMacos : Bool) (e : TarEntry) (p d : Str) (m : Option Nat),
      bundleFromTarStep isMacos true e = some (.file p d m) →
      m = some (e.mode.getD 0o644)) ∧
    (∀ (e : SrcZipEntry) (p d : Str) (m : Option Nat),
      bundleFromZipStep e = some (.file p d m) → m = none) ∧
    (∀ dta : Str, bundleFromZipStep ⟨str "wrapper-dir/bin/java", dta⟩
      = some (.file (str "jre/bin/java") dta none)) := by
  refine ⟨?_, ?_, ?_⟩
  · intro isMacos e p d m h
    unfold bundleFromTarStep at h
    dsimp only at h
    split at h
    · exact absurd h (by simp)
    · split at h
      · split at h
        · exact absurd h (by simp)
        · split at h
          · exact absurd h (by simp)
          · injection h with h1
            injection h1 with hn hd hm
            exact hm.symm
          · exact absurd h (by simp)
      · split at h
        · exact absurd h (by simp)
        · split at h
          · exact absurd h (by simp)
          · injection h with h1
            injection h1 with hn hd hm
            exact hm.symm
          · exact absurd h (by simp)
  · intro e p d m h
    unfold bundleFromZipStep at h
    dsimp only at h
    split at h
    · exact absurd h (by simp)
    · split at h
      · exact absurd h (by simp)
      · injection h with h1
        injection h1 with hn hd hm
        exact hm.symm
  · intro dta
    rfl

/-- Witness for claim C8 at concrete entries: the executable mode octal 755
survives the tarball path, a missing header mode becomes octal 644, and the
ZIP path emits the same file with no mode. -/
theorem bundle_mode_preservation_witness :
    ((some 0o755 : Option Nat)
      = some ((⟨str "wrapper-dir/bin/java", .file, str "EXE", some 0o755⟩
          : TarEntry).mode.getD 0o644)) ∧
    ((some 0o644 : Option Nat)
      = some ((⟨str "wrapper-dir/bin/java", .file, str "EXE", none⟩
          : TarEntry).mode.getD 0o644)) ∧
    (bundleFromZipStep ⟨str "wrapper-dir/bin/java", str "EXE"⟩
      = some (.file (str "jre/bin/java") (str "EXE") none)) :=
  ⟨bundle_mode_preservation.1 false
      ⟨str "wrapper-dir/bin/java", .file, str "EXE", some 0o755⟩
      (str "jre/bin/java") (str "EXE") (some 0o755) rfl,
   bundle_mode_preservation.1 false
      ⟨str "wrapper-dir/bin/java", .file, str "EXE", none⟩
      (str "jre/bin/java") (str "EXE") (some 0o644) rfl,
   bundle_mode_preservation.2.2 (str "EXE")⟩
